import Mathlib

/-!
Verification of the schema-driven widget development pipeline.

Shallow embedding of the core of the `apps-sdk-template` repository:

* the metadata extractor's mock-data generator
  (`src/web/scripts/extract-widget-metadata.ts`, `generateExampleFromZodSchema`),
* the extractor's per-file resolution loop (`main` in the same script),
* the widget definition binder (`defineWidget`),
* the dev-server HTML middlewares
  (`src/packages/widget-dev-server/src/index.ts` and the inline `/dev`
  middleware of the server entry point),
* the client widget loader (`WidgetLoader`).

Randomness (the `faker` calls) is modelled by threading an explicit state
carrying an infinite stream of natural numbers (`stream : Nat → Nat`) with a
cursor `idx`; each faker call consumes one stream element.  `console.warn`
diagnostics are modelled by an accumulating list `warns` in the same state;
informational `console.log` tracing is not modelled.
-/

/-- JSON-like runtime values.  `vundefined` is JavaScript's `undefined`
(the absence marker), `vnull` is `null`.  Numbers are modelled as integers
(the generators only ever produce integers). -/
inductive Value where
  | vnull : Value
  | vundefined : Value
  | vbool (b : Bool) : Value
  | vnum (n : Int) : Value
  | vstr (s : String) : Value
  | varr (xs : List Value) : Value
  | vobj (fields : List (String × Value)) : Value
deriving Repr

/-- JavaScript truthiness of a `Value`: `null`, `undefined`, `false`, `0` and
`""` are falsy, everything else is truthy. -/
def Value.truthy : Value → Bool
  | .vnull => false
  | .vundefined => false
  | .vbool b => b
  | .vnum n => n != 0
  | .vstr s => s != ""
  | .varr _ => true
  | .vobj _ => true

/-- Zod schema nodes, as introspected through `schema._def.typeName` by the
extractor.  `zunknown name` stands for any schema object whose `typeName` is
none of the supported ones (the extractor's final fallthrough); it also covers
plain non-schema values accidentally used as schemas (`typeName` undefined). -/
inductive Zod where
  | zstring : Zod
  | znumber : Zod
  | zboolean : Zod
  | zobject (fields : List (String × Zod)) : Zod
  | zarray (elem : Zod) : Zod
  | zoptional (inner : Zod) : Zod
  | znullable (inner : Zod) : Zod
  | zdefault (inner : Zod) (dflt : Value) : Zod
  | zenum (values : List String) : Zod
  | zunion (options : List Zod) : Zod
  | zliteral (v : Value) : Zod
  | zunknown (typeName : String) : Zod
deriving Repr

/-- State threaded through generation: a pseudo-random stream with a cursor
(each faker call reads `stream idx` and advances), plus the accumulated
`console.warn` diagnostics. -/
structure GenState where
  stream : Nat → Nat
  idx : Nat
  warns : List String

/-- Draw one pseudo-random natural number (models one faker call). -/
def nextNat (s : GenState) : Nat × GenState :=
  (s.stream s.idx, { s with idx := s.idx + 1 })

/-- Record a `console.warn` diagnostic. -/
def pushWarn (s : GenState) (msg : String) : GenState :=
  { s with warns := s.warns ++ [msg] }

/-- Models `faker.number.int({ min, max })`: an integer in `[min, max]`
(requires `min ≤ max`, as in every call site). -/
def fakerInt (lo hi : Nat) (s : GenState) : Nat × GenState :=
  let (n, s') := nextNat s
  (lo + n % (hi - lo + 1), s')

/-- Models `faker.lorem.word()`: some word-like token. -/
def fakerWord (s : GenState) : String × GenState :=
  let (n, s') := nextNat s
  (["lorem", "ipsum", "dolor", "amet"].getD (n % 4) "lorem", s')

/-- Models `faker.datatype.boolean()`: a uniformly random boolean. -/
def fakerBool (s : GenState) : Bool × GenState :=
  let (n, s') := nextNat s
  (n % 2 == 1, s')

mutual

/-- The metadata extractor's mock generator `generateExampleFromZodSchema`
(src/web/scripts/extract-widget-metadata.ts, lines 28–85), translated case by
case:

* `ZodObject` → each declared field generated in declaration order;
* `ZodString` → `faker.lorem.word()`;
* `ZodNumber` → `faker.number.int({ min: 1, max: 100 })`;
* `ZodBoolean` → `faker.datatype.boolean()`;
* `ZodArray` → `count = faker.number.int({ min: 2, max: 3 })` elements, each
  from a fresh recursive call (the count draw yields 2 or 3, so the two/three
  element generations are written out; state threading is identical to
  `Array.from({length: count}, () => ...)`);
* `ZodOptional` / `ZodNullable` → unconditionally recurse into `unwrap()`;
* `ZodDefault` → `schema._def.defaultValue()`, no recursion;
* `ZodEnum` → `faker.helpers.arrayElement(values)`;
* `ZodUnion` → `faker.helpers.arrayElement(options)`, then recurse;
* anything else → `console.warn('[faker] Unknown schema type', ...)` and
  return `null`.

`z.enum` and `z.union` require non-empty literal/option sets, so the
empty-list cases are unreachable from well-typed call sites; the model returns
`""`/`null` there. -/
def generateExampleFromZodSchema : Zod → GenState → Value × GenState
  | .zobject fields, s =>
      let (fs, s') := generateFields fields s
      (.vobj fs, s')
  | .zstring, s =>
      let (w, s') := fakerWord s
      (.vstr w, s')
  | .znumber, s =>
      let (n, s') := fakerInt 1 100 s
      (.vnum (Int.ofNat n), s')
  | .zboolean, s =>
      let (b, s') := fakerBool s
      (.vbool b, s')
  | .zarray elem, s =>
      let (count, s0) := fakerInt 2 3 s
      let (v1, s1) := generateExampleFromZodSchema elem s0
      let (v2, s2) := generateExampleFromZodSchema elem s1
      if count == 2 then (.varr [v1, v2], s2)
      else
        let (v3, s3) := generateExampleFromZodSchema elem s2
        (.varr [v1, v2, v3], s3)
  | .zoptional inner, s => generateExampleFromZodSchema inner s
  | .znullable inner, s => generateExampleFromZodSchema inner s
  | .zdefault _ dflt, s => (dflt, s)
  | .zenum values, s =>
      let (n, s') := nextNat s
      (.vstr (values.getD (n % values.length) ""), s')
  | .zunion options, s =>
      let (n, s') := nextNat s
      match hopt : options[n % options.length]? with
      | some o => generateExampleFromZodSchema o s'
      | none => (.vnull, s')
  | .zliteral _, s => (.vnull, pushWarn s "[faker] Unknown schema type: ZodLiteral")
  | .zunknown tn, s => (.vnull, pushWarn s ("[faker] Unknown schema type: " ++ tn))
termination_by z _ => sizeOf z
decreasing_by
  all_goals simp_wf
  all_goals first
    | omega
    | exact Nat.lt_add_left 1 (List.sizeOf_lt_of_mem (List.getElem?_mem hopt))

/-- The `for (const [key, fieldSchema] of Object.entries(shape))` loop of the
`ZodObject` case: generate every field in declaration order. -/
def generateFields : List (String × Zod) → GenState → List (String × Value) × GenState
  | [], s => ([], s)
  | (k, z) :: rest, s =>
      let (v, s') := generateExampleFromZodSchema z s
      let (vs, s'') := generateFields rest s'
      ((k, v) :: vs, s'')
termination_by fs _ => sizeOf fs
decreasing_by
  all_goals simp_wf
  all_goals omega

end

mutual

/-- Modelled from the spec: `generateMockFromSchema`, the Mock Generator the
binder imports from "./generateMockFromSchema" (that module is not among the
available sources; only its caller `defineWidget` is).  Follows the rules of
§4.1 of the spec: `string` → random word, `number` → random integer in
[1,100], `boolean` → random boolean, `array` → 2–3 independently generated
elements (the bound the extractor uses, kept "consistent across the system"
as the spec instructs), `object` → every field in declaration order, a field
being dropped only when its optional branch resolves to absence, `optional` →
50% absence marker / 50% recurse, `nullable` → 50% explicit null / 50%
recurse, `literal` → the fixed value, `enum`/`union` → uniform pick,
`default` → the declared default value, unknown kind → diagnostic plus null. -/
def generateMockFromSchema : Zod → GenState → Value × GenState
  | .zstring, s =>
      let (w, s') := fakerWord s
      (.vstr w, s')
  | .znumber, s =>
      let (n, s') := fakerInt 1 100 s
      (.vnum (Int.ofNat n), s')
  | .zboolean, s =>
      let (b, s') := fakerBool s
      (.vbool b, s')
  | .zobject fields, s =>
      let (fs, s') := generateMockFields fields s
      (.vobj fs, s')
  | .zarray elem, s =>
      let (count, s0) := fakerInt 2 3 s
      let (v1, s1) := generateMockFromSchema elem s0
      let (v2, s2) := generateMockFromSchema elem s1
      if count == 2 then (.varr [v1, v2], s2)
      else
        let (v3, s3) := generateMockFromSchema elem s2
        (.varr [v1, v2, v3], s3)
  | .zoptional inner, s =>
      let (b, s') := fakerBool s
      if b then (.vundefined, s') else generateMockFromSchema inner s'
  | .znullable inner, s =>
      let (b, s') := fakerBool s
      if b then (.vnull, s') else generateMockFromSchema inner s'
  | .zdefault _ dflt, s => (dflt, s)
  | .zenum values, s =>
      let (n, s') := nextNat s
      (.vstr (values.getD (n % values.length) ""), s')
  | .zunion options, s =>
      let (n, s') := nextNat s
      match hopt : options[n % options.length]? with
      | some o => generateMockFromSchema o s'
      | none => (.vnull, s')
  | .zliteral v, s => (v, s)
  | .zunknown tn, s => (.vnull, pushWarn s ("[mock] Unknown schema type: " ++ tn))
termination_by z _ => sizeOf z
decreasing_by
  all_goals simp_wf
  all_goals first
    | omega
    | exact Nat.lt_add_left 1 (List.sizeOf_lt_of_mem (List.getElem?_mem hopt))

/-- Modelled from the spec: the `object` rule of §4.1 — "every declared field
generated independently and inserted; field order follows declaration order;
no field is ever omitted ... unless the optional/nullable branch below is
taken for that field" (an optional field resolving to the absence marker is
omitted from the object). -/
def generateMockFields : List (String × Zod) → GenState → List (String × Value) × GenState
  | [], s => ([], s)
  | (k, z) :: rest, s =>
      let (v, s') := generateMockFromSchema z s
      let (vs, s'') := generateMockFields rest s'
      (if v matches .vundefined then vs else (k, v) :: vs, s'')
termination_by fs _ => sizeOf fs
decreasing_by
  all_goals simp_wf
  all_goals omega

end

/-!
The widget definition binder.

The function `defineWidget` (source unit `part_001`) receives
`{ schema, exampleOutput?, component }` where `exampleOutput` is either a
concrete value, a zero-argument producer function, or absent, and attaches
`__widgetMeta = { schema, exampleOutput: resolvedExample }` to the component.

A JavaScript producer is stateful and may throw; it is modelled as a function
of its invocation index returning `Except`: `p k` is what the `k`-th call
(0-based) would return, a thrown exception being `Except.error`.  The binder
threads a `BindState` holding the number of producer invocations so far and
the random state the Mock Generator draws from; an exception escaping
`defineWidget` is the `Except.error` of the result. -/

/-- The `exampleOutput` field of a `WidgetDefinition`: a concrete value,
a zero-argument producer, or `undefined` (field omitted). -/
inductive ExampleOutput where
  | value (v : Value)
  | producer (p : Nat → Except String Value)
  | omitted

/-- State threaded through a bind: how many times the supplied producer has
been invoked, and the random state consumed by the Mock Generator. -/
structure BindState where
  producerCalls : Nat
  rand : GenState

/-- The bound widget `defineWidget` returns: the component (renderer) of type
`ρ` with `__widgetMeta = { schema, exampleOutput: resolvedExample }` attached. -/
structure BoundWidget (ρ : Type) where
  component : ρ
  metaSchema : Zod
  resolvedExample : Value

/-- The binder `defineWidget` (source unit `part_001`, lines 71–101):

* `exampleOutput` a concrete value → used verbatim as `resolvedExample`;
* a function → invoked once (`exampleOutput()`); if it throws, the exception
  propagates out of `defineWidget` (no component is returned);
* `undefined` → `resolvedExample = generateMockFromSchema(schema)`.

The metadata `{ schema, exampleOutput: resolvedExample }` is attached to the
component and the component is returned. -/
def defineWidget {ρ : Type} (schema : Zod) (exampleOutput : ExampleOutput)
    (component : ρ) (st : BindState) : Except String (BoundWidget ρ × BindState) :=
  match exampleOutput with
  | .value v =>
      .ok (⟨component, schema, v⟩, st)
  | .producer p =>
      match p st.producerCalls with
      | .ok v => .ok (⟨component, schema, v⟩, { st with producerCalls := st.producerCalls + 1 })
      | .error e => .error e
  | .omitted =>
      let (v, r') := generateMockFromSchema schema st.rand
      .ok (⟨component, schema, v⟩, { st with rand := r' })

/-!
The metadata extractor's main loop.

The `main` function of `src/web/scripts/extract-widget-metadata.ts`
(lines 106–191) iterates over the discovered widget source files.  A file's
content is modelled at the granularity the loop inspects it: whether the raw
content contains the substring "defineWidget", and, per line, whether the
trimmed line starts with "//" (a comment line, skipped) and which identifier
the regexes `exampleOutput:\s*(\w+)` and `(?:outputSchema|schema):\s*(\w+)`
capture on it, if any.  The shared package is a partial map from export names
to exports, an export being either a plain value or a Zod schema object.
-/

/-- One line of a widget source file, as the extractor's scanning loops see
it: `isComment` is `trimmed.startsWith("//")`, `exampleRef` is the capture of
the `exampleOutput:` regex on the line (if it matches), `schemaRef` the
capture of the `outputSchema:`/`schema:` regex. -/
structure SourceLine where
  isComment : Bool
  exampleRef : Option String
  schemaRef : Option String

/-- A discovered widget source file: `name` is `path.basename(file, ".tsx")`,
`containsDefineWidget` is `content.includes("defineWidget")`, `lines` is
`content.split("\n")`. -/
structure WidgetFile where
  name : String
  containsDefineWidget : Bool
  lines : List SourceLine

/-- An export of the shared package: a plain (example) value or a Zod schema
object. -/
inductive SharedExport where
  | val (v : Value)
  | schema (z : Zod)

/-- JavaScript truthiness of a shared export: schema objects are objects,
hence truthy; plain values use `Value.truthy`. -/
def SharedExport.truthy : SharedExport → Bool
  | .val v => v.truthy
  | .schema _ => true

/-- What `generateExampleFromZodSchema` receives when the export is passed to
it as a schema: a real schema object is introspected as itself; a plain value
has no `_def.typeName` and is no `instanceof` of any Zod class, so it falls
into the unknown-kind branch. -/
def SharedExport.asZod : SharedExport → Zod
  | .schema z => z
  | .val _ => .zunknown "undefined"

/-- The shared package, `await import("@apps-sdk-template/shared")`: a map
from export names to exports (`none` models an absent export, i.e.
`shared[name]` being `undefined`). -/
def SharedModule : Type := String → Option SharedExport

/-- One scanning loop of the extractor: walk the lines in order, skip lines
whose trimmed form starts with "//", and return the first capture of the
given regex (`break` on the first match). -/
def scanLines (capture : SourceLine → Option String) : List SourceLine → Option String
  | [] => none
  | l :: rest =>
      if l.isComment then scanLines capture rest
      else
        match capture l with
        | some n => some n
        | none => scanLines capture rest

/-- The first scanning loop: find the example-reference identifier
(`exampleOutput: <name>`) on a non-comment line. -/
def findExampleName (lines : List SourceLine) : Option String :=
  scanLines SourceLine.exampleRef lines

/-- The second scanning loop: find the schema-reference identifier
(`outputSchema: <name>` or `schema: <name>`) on a non-comment line. -/
def findSchemaName (lines : List SourceLine) : Option String :=
  scanLines SourceLine.schemaRef lines

/-- One entry of the metadata map: `{ name, exampleOutput }`. -/
structure WidgetMetadata where
  name : String
  exampleOutput : SharedExport

/-- The `if (!exampleOutput)` fallback of the per-file loop: look for a
schema reference; if the identifier names a truthy shared export, run
`generateExampleFromZodSchema` over it (the `try` around the call never
fires: generation is total); otherwise (`shared[schemaName]` falsy or no
schema reference found) leave `exampleOutput` unset. -/
def resolveFromSchema (shared : SharedModule) (f : WidgetFile) (s : GenState) :
    Option SharedExport × GenState :=
  match findSchemaName f.lines with
  | some schemaName =>
      match shared schemaName with
      | some e =>
          if e.truthy then
            let (v, s') := generateExampleFromZodSchema e.asZod s
            (some (.val v), s')
          else (none, s)
      | none => (none, s)
  | none => (none, s)

/-- The example-resolution part of the per-file loop: scan for an example
reference; if one is found and `shared[exampleName]` is truthy, that export
is the `exampleOutput`; otherwise (`if (!exampleOutput)`) fall back to
schema-based generation (`resolveFromSchema`). -/
def resolveExample (shared : SharedModule) (f : WidgetFile) (s : GenState) :
    Option SharedExport × GenState :=
  let fromExample : Option SharedExport :=
    match findExampleName f.lines with
    | some exampleName =>
        match shared exampleName with
        | some e => if e.truthy then some e else none
        | none => none
    | none => none
  match fromExample with
  | some e => (some e, s)
  | none => resolveFromSchema shared f s

/-- The tail of the per-file loop: `if (exampleOutput)` is truthy, insert
`{ name: widgetName, exampleOutput }`; a falsy result is not added to the
metadata map. -/
def finalizeEntry (name : String) : Option SharedExport × GenState →
    Option WidgetMetadata × GenState
  | (some e, s') => if e.truthy then (some ⟨name, e⟩, s') else (none, s')
  | (none, s') => (none, s')

/-- The body of the extractor's per-file loop (`main`, lines 106–191):
skip the file unless its content contains "defineWidget"; otherwise resolve
an example (explicit reference first, schema-based generation as fallback)
and keep the entry only if the resolved example is truthy. -/
def processFile (shared : SharedModule) (f : WidgetFile) (s : GenState) :
    Option WidgetMetadata × GenState :=
  if !f.containsDefineWidget then (none, s)
  else finalizeEntry f.name (resolveExample shared f s)

/-- JavaScript object property assignment `metadataMap[key] = value`:
overwrite in place if the key exists, append otherwise. -/
def recordSet (m : List (String × WidgetMetadata)) (k : String) (v : WidgetMetadata) :
    List (String × WidgetMetadata) :=
  match m with
  | [] => [(k, v)]
  | (k', v') :: rest => if k' = k then (k, v) :: rest else (k', v') :: recordSet rest k v

/-- The extractor's main loop over all discovered widget files: process each
file in order, assigning each success into the accumulated metadata map
(`metadataMap[widgetName] = ...`); the surrounding per-file `try` never
fires, `processFile` being total. -/
def runExtractAux (shared : SharedModule) (files : List WidgetFile)
    (acc : List (String × WidgetMetadata)) (s : GenState) :
    List (String × WidgetMetadata) × GenState :=
  match files with
  | [] => (acc, s)
  | f :: rest =>
      let (entry, s') := processFile shared f s
      match entry with
      | some m => runExtractAux shared rest (recordSet acc m.name m) s'
      | none => runExtractAux shared rest acc s'

/-- The extractor's `main`, from the start of the per-file loop to the final
metadata map (`metadataMap` starts out empty). -/
def runExtract (shared : SharedModule) (files : List WidgetFile) (s : GenState) :
    List (String × WidgetMetadata) × GenState :=
  runExtractAux shared files [] s

/-!
The dev-server HTML middlewares.

Two implementations exist in the repository: the inline `/dev` middleware of
the server entry point (source unit `part_004`, lines 48–69), which checks an
explicit allow-list `["widget-dev.html", "test-widget.html"]`, and the
packaged one (`createWidgetDevServer` in
`src/packages/widget-dev-server/src/index.ts`, lines 85–113), which handles
every request whose path ends in ".html".  The filesystem read is modelled as
a function from the requested file name to `Except` (the serving root being
fixed by the closure), and `vite.transformIndexHtml` as an opaque total
function of the request URL and the HTML text.
-/

/-- Models `req.path.slice(1)`: the request path with its leading character
removed (computed on the character list so that concrete instances reduce). -/
def sliceOne (s : String) : String := String.mk (s.data.drop 1)

/-- Models `String.prototype.endsWith(pat)` (computed on the character
lists so that concrete instances reduce). -/
def strEndsWith (s pat : String) : Bool := pat.data.isSuffixOf s.data

/-- The observable outcome of running one Express middleware on a request:
respond with a content type and body, call `next()` with no argument, or call
`next(error)` (which routes to error-handling middleware further down the
chain rather than crashing the process). -/
inductive MwOutcome where
  | respond (contentType : String) (body : String)
  | next : MwOutcome
  | nextError (e : String)

/-- The fixed allow-list of dev shell documents of the inline middleware:
`const htmlFiles = ["widget-dev.html", "test-widget.html"]`. -/
def htmlFiles : List String := ["widget-dev.html", "test-widget.html"]

/-- The inline `/dev` middleware (source unit `part_004`, lines 48–69):
`requestedFile = req.path.slice(1)`; if it is in the allow-list, read it from
the dev directory, transform it, and respond with content type "text/html";
a read (or transform) failure is caught and forwarded as `next(error)`; any
other path falls through with a plain `next()`. -/
def devMiddlewareInline (fsRead : String → Except String String)
    (transform : String → String → String) (reqPath reqUrl : String) : MwOutcome :=
  let requestedFile := sliceOne reqPath
  if requestedFile ∈ htmlFiles then
    match fsRead requestedFile with
    | .ok html => .respond "text/html" (transform reqUrl html)
    | .error e => .nextError e
  else
    .next

/-- The packaged dev middleware (`createWidgetDevServer`,
`src/packages/widget-dev-server/src/index.ts`, lines 85–113):
`requestedFile = req.path.slice(1)`; only paths ending in ".html" are
handled (others fall through with `next()`); a handled file is read from the
configured HTML directory, transformed, and sent with content type
"text/html"; a read failure is caught, logged, and forwarded as
`next(error)`. -/
def devMiddlewarePkg (fsRead : String → Except String String)
    (transform : String → String → String) (reqPath reqUrl : String) : MwOutcome :=
  let requestedFile := sliceOne reqPath
  if !strEndsWith requestedFile ".html" then
    .next
  else
    match fsRead requestedFile with
    | .ok html => .respond "text/html" (transform reqUrl html)
    | .error e => .nextError e

/-!
The client widget loader.

`WidgetLoader` (source unit `part_000`, lines 19–49) reads the `widget` query
parameter (JavaScript `params.get("widget") || "pokemon"`, so both an absent
parameter — `null` — and an empty one fall back to "pokemon"), builds the key
`./widgets/<name>.tsx`, and looks it up in the Vite glob map
`import.meta.glob("./widgets/*.tsx")`, whose keys are exactly that shape.
A miss sets the error state with a message enumerating every available
widget name; a hit runs the module loader, whose settled promise either
yields the exported renderer (`module.default`) or a load failure message.
-/

/-- The terminal state the `WidgetLoader` effect reaches for one mount:
either the matched module's renderer is mounted, or the diagnostic error
view is shown.  `ρ` is the opaque renderer (component) type. -/
inductive LoaderState (ρ : Type) where
  | loaded (component : ρ)
  | error (msg : String)

/-- The glob key of a widget module: `"./widgets/" ++ name ++ ".tsx"`. -/
def widgetKey (name : String) : String := "./widgets/" ++ name ++ ".tsx"

/-- The available-widget enumeration shown in the not-found message:
`Object.keys(widgets)` with the directory and extension stripped, joined
with ", ". -/
def availableNames {ρ : Type} (mods : List (String × Except String ρ)) : String :=
  String.intercalate ", " (mods.map (·.1))

/-- The not-found error message:
`Widget "<name>" not found. Available: <list>`. -/
def widgetNotFoundMsg {ρ : Type} (widgetName : String)
    (mods : List (String × Except String ρ)) : String :=
  "Widget \x22" ++ widgetName ++ "\x22 not found. Available: " ++ availableNames mods

/-- The load-failure error message:
`Failed to load widget "<name>": <reason>`. -/
def widgetLoadFailedMsg (widgetName reason : String) : String :=
  "Failed to load widget \x22" ++ widgetName ++ "\x22: " ++ reason

/-- The `WidgetLoader` effect (source unit `part_000`, lines 19–49).  `mods`
is the statically enumerated glob map, keyed by widget name (its real keys
are `widgetKey name`; the lookup compares the built path against them), each
module's dynamic import settling to its default-exported renderer or to a
load-failure reason.  `queryWidget` is `params.get("widget")`. -/
def widgetLoaderResolve {ρ : Type} (mods : List (String × Except String ρ))
    (queryWidget : Option String) : LoaderState ρ :=
  let widgetName :=
    match queryWidget with
    | none => "pokemon"
    | some q => if q = "" then "pokemon" else q
  let widgetPath := widgetKey widgetName
  match mods.find? (fun e => widgetKey e.1 == widgetPath) with
  | none => .error (widgetNotFoundMsg widgetName mods)
  | some (_, .ok component) => .loaded component
  | some (_, .error reason) => .error (widgetLoadFailedMsg widgetName reason)

/-- A concrete random state: the all-zero stream, cursor at the origin, no
diagnostics yet. -/
def zeroState : GenState := ⟨fun _ => 0, 0, []⟩

/-- A concrete random state drawing the all-one stream. -/
def oneState : GenState := ⟨fun _ => 1, 0, []⟩

/-- C1 counterexample: in the extractor's generator an `optional` (resp.
`nullable`) wrapper is semantically invisible — generation over the wrapped
boolean node is literally the same function, so no outcome of the random
choices yields an absence marker or a null; at both residues of the one
consumed random draw the result is a boolean. -/
theorem extractor_optional_never_absent_counterexample :
    generateExampleFromZodSchema (Zod.zoptional Zod.zboolean)
      = generateExampleFromZodSchema Zod.zboolean ∧
    generateExampleFromZodSchema (Zod.znullable Zod.zboolean)
      = generateExampleFromZodSchema Zod.zboolean ∧
    (generateExampleFromZodSchema (Zod.zoptional Zod.zboolean) zeroState).1
      = Value.vbool false ∧
    (generateExampleFromZodSchema (Zod.znullable Zod.zboolean) oneState).1
      = Value.vbool true := by
  refine ⟨funext fun s => ?_, funext fun s => ?_, ?_, ?_⟩
  · simp [generateExampleFromZodSchema]
  · simp [generateExampleFromZodSchema]
  · simp [generateExampleFromZodSchema, fakerBool, nextNat, zeroState]
  · simp [generateExampleFromZodSchema, fakerBool, nextNat, oneState]

/-- C1 (amended): for every wrapped node and every random state the
extractor's generator resolves `optional` and `nullable` by unconditionally
recursing into the wrapped node — the 50% absence/null rule of the Mock
Generator contract is not applied here. -/
theorem extractor_optional_nullable_always_recurse (z : Zod) (s : GenState) :
    generateExampleFromZodSchema (Zod.zoptional z) s
      = generateExampleFromZodSchema z s ∧
    generateExampleFromZodSchema (Zod.znullable z) s
      = generateExampleFromZodSchema z s := by
  constructor <;> simp [generateExampleFromZodSchema]

/-- C2 counterexample: the extractor's generator has no literal case, so
generating from `literal(true)` returns `null`, not the fixed value `true`. -/
theorem extractor_literal_counterexample :
    (generateExampleFromZodSchema (Zod.zliteral (Value.vbool true)) zeroState).1
      = Value.vnull ∧
    Value.vnull ≠ Value.vbool true := by
  constructor
  · simp [generateExampleFromZodSchema]
  · intro h; exact Value.noConfusion h

/-- C2 (amended): for every fixed value and every random state, generating a
mock from a literal node in the extractor's generator deterministically
returns `null` together with an unknown-schema-type diagnostic (literal is
not among its supported variants), never the fixed value. -/
theorem extractor_literal_returns_null (v : Value) (s : GenState) :
    generateExampleFromZodSchema (Zod.zliteral v) s
      = (Value.vnull, pushWarn s "[faker] Unknown schema type: ZodLiteral") := by
  simp [generateExampleFromZodSchema]

/-- C8: generation is total — every node kind yields a value — and an
unsupported node kind produces exactly a `console.warn` diagnostic and the
value `null`, with no exception escaping the generator. -/
theorem extractor_generator_unknown_safe :
    (∀ (tn : String) (s : GenState),
        generateExampleFromZodSchema (Zod.zunknown tn) s
          = (Value.vnull, pushWarn s ("[faker] Unknown schema type: " ++ tn))) ∧
    (∀ (z : Zod) (s : GenState), ∃ (v : Value) (s' : GenState),
        generateExampleFromZodSchema z s = (v, s')) := by
  constructor
  · intro tn s; simp [generateExampleFromZodSchema]
  · intro z s; exact ⟨_, _, rfl⟩

/-- C9: for every element node and every random state, the extractor's
generator turns an array node into a sequence whose length is within the
1–3 bound (the drawn count is in fact always 2 or 3), every element being
the result of a generation over the element node. -/
theorem extractor_array_length_bounds (elem : Zod) (s : GenState) :
    ∃ (xs : List Value) (s' : GenState),
      generateExampleFromZodSchema (Zod.zarray elem) s = (Value.varr xs, s') ∧
      1 ≤ xs.length ∧ xs.length ≤ 3 ∧
      ∀ x ∈ xs, ∃ (t t' : GenState), generateExampleFromZodSchema elem t = (x, t') := by
  rcases hfi : fakerInt 2 3 s with ⟨c, s0⟩
  rcases h1 : generateExampleFromZodSchema elem s0 with ⟨v1, s1⟩
  rcases h2 : generateExampleFromZodSchema elem s1 with ⟨v2, s2⟩
  rcases h3 : generateExampleFromZodSchema elem s2 with ⟨v3, s3⟩
  by_cases hc : c == 2
  · refine ⟨[v1, v2], s2, ?_, by simp, by simp, ?_⟩
    · simp [generateExampleFromZodSchema, hfi, h1, h2, hc]
    · intro x hx
      simp only [List.mem_cons, List.not_mem_nil, or_false] at hx
      rcases hx with rfl | rfl
      · exact ⟨s0, s1, h1⟩
      · exact ⟨s1, s2, h2⟩
  · refine ⟨[v1, v2, v3], s3, ?_, by simp, by simp, ?_⟩
    · simp [generateExampleFromZodSchema, hfi, h1, h2, h3, hc]
    · intro x hx
      simp only [List.mem_cons, List.not_mem_nil, or_false] at hx
      rcases hx with rfl | rfl | rfl
      · exact ⟨s0, s1, h1⟩
      · exact ⟨s1, s2, h2⟩
      · exact ⟨s2, s3, h3⟩

/-- C4: the three resolution legs of the binder.  A concrete example value is
attached verbatim (the very value, unmodified, with no state change); a
producer is invoked exactly once at bind time (the invocation counter
advances by exactly one) and its return value becomes the resolved example;
an omitted example resolves to the Mock Generator's output over the schema. -/
theorem defineWidget_resolution {ρ : Type} (schema : Zod) (ex : Value)
    (p : Nat → Except String Value) (component : ρ) (st : BindState) (v : Value)
    (hp : p st.producerCalls = Except.ok v) :
    defineWidget schema (.value ex) component st
      = .ok (⟨component, schema, ex⟩, st) ∧
    defineWidget schema (.producer p) component st
      = .ok (⟨component, schema, v⟩,
             { st with producerCalls := st.producerCalls + 1 }) ∧
    defineWidget schema .omitted component st
      = .ok (⟨component, schema, (generateMockFromSchema schema st.rand).1⟩,
             { st with rand := (generateMockFromSchema schema st.rand).2 }) := by
  refine ⟨rfl, ?_, ?_⟩
  · simp [defineWidget, hp]
  · simp [defineWidget]

/-- C4 witness at concrete inputs: an explicit example `7` is preserved, the
producer returning `9` on its only invocation yields `9` with the invocation
count going from 0 to 1, and the omitted-example leg invokes the Mock
Generator on the schema. -/
theorem defineWidget_resolution_witness :
    defineWidget Zod.zstring (.value (Value.vnum 7)) "renderer" ⟨0, zeroState⟩
      = .ok (⟨"renderer", Zod.zstring, Value.vnum 7⟩, ⟨0, zeroState⟩) ∧
    defineWidget Zod.zstring (.producer fun _ => .ok (Value.vnum 9)) "renderer" ⟨0, zeroState⟩
      = .ok (⟨"renderer", Zod.zstring, Value.vnum 9⟩, ⟨1, zeroState⟩) ∧
    defineWidget Zod.zstring .omitted "renderer" ⟨0, zeroState⟩
      = .ok (⟨"renderer", Zod.zstring, (generateMockFromSchema Zod.zstring zeroState).1⟩,
             ⟨0, (generateMockFromSchema Zod.zstring zeroState).2⟩) :=
  defineWidget_resolution Zod.zstring (Value.vnum 7) (fun _ => .ok (Value.vnum 9))
    "renderer" ⟨0, zeroState⟩ (Value.vnum 9) rfl

/-- C5: when the supplied producer throws at bind time, `defineWidget` fails
with that construction error: no bound widget (renderer with attached
metadata) is returned, and in particular the result is never the
Mock-Generator fallback. -/
theorem defineWidget_producer_throws {ρ : Type} (schema : Zod) (component : ρ)
    (p : Nat → Except String Value) (st : BindState) (e : String)
    (hp : p st.producerCalls = Except.error e) :
    defineWidget schema (.producer p) component st = .error e ∧
    ∀ (w : BoundWidget ρ) (st' : BindState),
      defineWidget schema (.producer p) component st ≠ .ok (w, st') := by
  have h : defineWidget schema (.producer p) component st = .error e := by
    simp [defineWidget, hp]
  exact ⟨h, fun w st' hok => by rw [h] at hok; exact Except.noConfusion hok⟩

/-- C5 witness at a concrete input: a producer that throws "boom" makes the
bind fail with exactly the construction error "boom". -/
theorem defineWidget_producer_throws_witness :
    defineWidget Zod.zstring (.producer fun _ => .error "boom")
      ("renderer" : String) ⟨0, zeroState⟩ = .error "boom" :=
  (defineWidget_producer_throws Zod.zstring "renderer" (fun _ => .error "boom")
    ⟨0, zeroState⟩ "boom" rfl).1

/-- C7: the loader's resolution behavior.  An absent `widget` query parameter
behaves exactly as the fixed fallback selector "pokemon"; a selector matching
a key of the module set whose import resolves reaches the loaded state with
that module's renderer; a selector matching no key reaches the error state,
with a message ending in the full enumerated list of available widget
names. -/
theorem widgetLoader_resolution {ρ : Type} (mods : List (String × Except String ρ))
    (name : String) (k : String) (component : ρ) :
    widgetLoaderResolve mods none = widgetLoaderResolve mods (some "pokemon") ∧
    (name ≠ "" →
      mods.find? (fun e => widgetKey e.1 == widgetKey name) = some (k, .ok component) →
      widgetLoaderResolve mods (some name) = .loaded component) ∧
    (name ≠ "" →
      mods.find? (fun e => widgetKey e.1 == widgetKey name) = none →
      widgetLoaderResolve mods (some name) = .error (widgetNotFoundMsg name mods) ∧
      ∃ pre, widgetNotFoundMsg name mods = pre ++ availableNames mods) := by
  refine ⟨rfl, ?_, ?_⟩
  · intro hname hfound
    simp [widgetLoaderResolve, hname, hfound]
  · intro hname hmiss
    constructor
    · simp [widgetLoaderResolve, hname, hmiss]
    · exact ⟨"Widget \x22" ++ name ++ "\x22 not found. Available: ",
        by simp [widgetNotFoundMsg, String.append_assoc]⟩

/-- The concrete module set of a witness run: the glob map contains exactly
the `pokemon` widget, whose import resolves to its renderer. -/
def pokeMods : List (String × Except String String) :=
  [("pokemon", Except.ok "PokemonRenderer")]

/-- C7 witness at concrete inputs: with a module set containing exactly
`pokemon`, an absent selector behaves as `pokemon`, `pokemon` loads its
renderer, and `doesnotexist` produces the not-found error message carrying
the enumerated list of valid names. -/
theorem widgetLoader_resolution_witness :
    widgetLoaderResolve pokeMods none = widgetLoaderResolve pokeMods (some "pokemon") ∧
    widgetLoaderResolve pokeMods (some "pokemon") = .loaded "PokemonRenderer" ∧
    widgetLoaderResolve pokeMods (some "doesnotexist")
      = .error (widgetNotFoundMsg "doesnotexist" pokeMods) :=
  ⟨(widgetLoader_resolution pokeMods "pokemon" "pokemon" "PokemonRenderer").1,
   (widgetLoader_resolution pokeMods "pokemon" "pokemon" "PokemonRenderer").2.1
     (by decide) rfl,
   ((widgetLoader_resolution pokeMods "doesnotexist" "pokemon" "PokemonRenderer").2.2
     (by decide) rfl).1⟩

/-- C6 counterexample: the packaged dev middleware serves a path outside the
fixed allow-list of shell documents — with a filesystem holding an
`other.html`, the request `/other.html` is answered with the transformed
body instead of being passed to the next handler untouched. -/
theorem devMiddlewarePkg_counterexample :
    devMiddlewarePkg
        (fun p => if p = "other.html" then .ok "<p>x</p>" else .error "ENOENT")
        (fun _ h => h) "/other.html" "/other.html"
      = .respond "text/html" "<p>x</p>" ∧
    htmlFiles.contains (sliceOne "/other.html") = false := by
  constructor
  · rfl
  · rfl

/-- C6 (amended): the inline `/dev` middleware serves exactly the two
allow-listed shell documents, passing every other path to the next handler
untouched; the packaged middleware instead handles every path ending in
".html" (passing only non-".html" paths untouched) and serves any such
document that reads successfully; in both, a read failure is caught and
deferred to the downstream handler chain as `next(error)` instead of
crashing. -/
theorem devMiddleware_serving (fsRead : String → Except String String)
    (transform : String → String → String) (reqPath reqUrl : String)
    (html err : String) :
    (sliceOne reqPath ∈ htmlFiles → fsRead (sliceOne reqPath) = .ok html →
        devMiddlewareInline fsRead transform reqPath reqUrl
          = .respond "text/html" (transform reqUrl html)) ∧
    (sliceOne reqPath ∉ htmlFiles →
        devMiddlewareInline fsRead transform reqPath reqUrl = .next) ∧
    (sliceOne reqPath ∈ htmlFiles → fsRead (sliceOne reqPath) = .error err →
        devMiddlewareInline fsRead transform reqPath reqUrl = .nextError err) ∧
    (strEndsWith (sliceOne reqPath) ".html" = true → fsRead (sliceOne reqPath) = .ok html →
        devMiddlewarePkg fsRead transform reqPath reqUrl
          = .respond "text/html" (transform reqUrl html)) ∧
    (strEndsWith (sliceOne reqPath) ".html" = false →
        devMiddlewarePkg fsRead transform reqPath reqUrl = .next) ∧
    (strEndsWith (sliceOne reqPath) ".html" = true → fsRead (sliceOne reqPath) = .error err →
        devMiddlewarePkg fsRead transform reqPath reqUrl = .nextError err) := by
  refine ⟨?_, ?_, ?_, ?_, ?_, ?_⟩
  · intro hmem hok; simp [devMiddlewareInline, hmem, hok]
  · intro hmem; simp [devMiddlewareInline, hmem]
  · intro hmem herr; simp [devMiddlewareInline, hmem, herr]
  · intro hext hok; simp [devMiddlewarePkg, hext, hok]
  · intro hext; simp [devMiddlewarePkg, hext]
  · intro hext herr; simp [devMiddlewarePkg, hext, herr]

/-- The filesystem of a witness run: only the two shell documents exist in
the dev directory. -/
def devFs : String → Except String String :=
  fun p =>
    if p = "widget-dev.html" then .ok "<html>dev</html>"
    else if p = "test-widget.html" then .ok "<html>test</html>"
    else .error "ENOENT"

/-- A transform standing in for `vite.transformIndexHtml` in the witness run:
prepends a live-reload bootstrap marker. -/
def devTransform : String → String → String :=
  fun _ html => "<script src=\x22/@vite/client\x22></script>" ++ html

/-- C6 witness at concrete requests: an allow-listed shell document is served
transformed as text/html, a non-listed path falls through untouched in both
middlewares, and a read failure (the allow-listed name missing from disk)
defers to the handler chain. -/
theorem devMiddleware_serving_witness :
    devMiddlewareInline devFs devTransform "/widget-dev.html" "/widget-dev.html"
      = .respond "text/html" (devTransform "/widget-dev.html" "<html>dev</html>") ∧
    devMiddlewareInline devFs devTransform "/api/data" "/api/data" = .next ∧
    devMiddlewareInline (fun _ => .error "EACCES") devTransform
        "/test-widget.html" "/test-widget.html" = .nextError "EACCES" ∧
    devMiddlewarePkg devFs devTransform "/widget-dev.html" "/widget-dev.html"
      = .respond "text/html" (devTransform "/widget-dev.html" "<html>dev</html>") ∧
    devMiddlewarePkg devFs devTransform "/src/main.tsx" "/src/main.tsx" = .next ∧
    devMiddlewarePkg (fun _ => .error "EACCES") devTransform
        "/test-widget.html" "/test-widget.html" = .nextError "EACCES" :=
  ⟨(devMiddleware_serving devFs devTransform "/widget-dev.html" "/widget-dev.html"
      "<html>dev</html>" "EACCES").1 (by decide) rfl,
   (devMiddleware_serving devFs devTransform "/api/data" "/api/data"
      "" "").2.1 (by decide),
   (devMiddleware_serving (fun _ => .error "EACCES") devTransform "/test-widget.html"
      "/test-widget.html" "" "EACCES").2.2.1 (by decide) rfl,
   (devMiddleware_serving devFs devTransform "/widget-dev.html" "/widget-dev.html"
      "<html>dev</html>" "EACCES").2.2.2.1 (by decide) rfl,
   (devMiddleware_serving devFs devTransform "/src/main.tsx" "/src/main.tsx"
      "" "").2.2.2.2.1 (by decide),
   (devMiddleware_serving (fun _ => .error "EACCES") devTransform "/test-widget.html"
      "/test-widget.html" "" "EACCES").2.2.2.2.2 (by decide) rfl⟩

/-- The key list of a metadata map. -/
def recordKeys (m : List (String × WidgetMetadata)) : List String := m.map Prod.fst

theorem recordSet_keys (m : List (String × WidgetMetadata)) (k : String) (v : WidgetMetadata) :
    recordKeys (recordSet m k v) =
      if k ∈ recordKeys m then recordKeys m else recordKeys m ++ [k] := by
  induction m with
  | nil => simp [recordSet, recordKeys]
  | cons hd tl ih =>
      rcases hd with ⟨k', v'⟩
      by_cases hk : k' = k
      · subst hk
        simp [recordSet, recordKeys]
      · by_cases hm : k ∈ recordKeys tl
        · simp only [recordKeys] at hm
          simp [recordSet, recordKeys, hk, Ne.symm hk, hm] at ih ⊢
          exact ih
        · simp only [recordKeys] at hm
          simp [recordSet, recordKeys, hk, Ne.symm hk, hm] at ih ⊢
          exact ih

theorem recordSet_keys_nodup (m : List (String × WidgetMetadata)) (k : String)
    (v : WidgetMetadata) (h : (recordKeys m).Nodup) :
    (recordKeys (recordSet m k v)).Nodup := by
  rw [recordSet_keys]
  split
  · exact h
  · rename_i hnot
    simp [List.nodup_append, h, hnot]

theorem recordSet_mem (m : List (String × WidgetMetadata)) (k : String)
    (v : WidgetMetadata) :
    ∀ e ∈ recordSet m k v, e = (k, v) ∨ e ∈ m := by
  induction m with
  | nil =>
      intro e he
      simp [recordSet] at he
      left; exact he
  | cons hd tl ih =>
      intro e he
      rcases hd with ⟨k', v'⟩
      by_cases hk : k' = k
      · subst hk
        simp [recordSet] at he
        rcases he with he | he
        · left; exact he
        · right; simp [he]
      · simp [recordSet, hk] at he
        rcases he with he | he
        · right; simp [he]
        · rcases ih e he with h | h
          · left; exact h
          · right; simp [h]

theorem finalizeEntry_some (name : String) (p : Option SharedExport × GenState)
    (m : WidgetMetadata) (s' : GenState) (h : finalizeEntry name p = (some m, s')) :
    m.exampleOutput.truthy = true ∧ m.name = name := by
  rcases p with ⟨o, s0⟩
  rcases o with _ | e
  · simp [finalizeEntry] at h
  · by_cases ht : e.truthy
    · simp [finalizeEntry, ht, Prod.ext_iff] at h
      rcases h with ⟨hm, _⟩
      rw [← hm]
      exact ⟨ht, rfl⟩
    · simp [finalizeEntry, ht] at h

theorem processFile_some_truthy (shared : SharedModule) (f : WidgetFile)
    (s : GenState) (m : WidgetMetadata) (s' : GenState)
    (h : processFile shared f s = (some m, s')) :
    m.exampleOutput.truthy = true ∧ m.name = f.name := by
  unfold processFile at h
  by_cases hd : f.containsDefineWidget
  · simp [hd] at h
    exact finalizeEntry_some _ _ _ _ h
  · simp [hd] at h

theorem runExtractAux_keys_nodup (shared : SharedModule) (files : List WidgetFile) :
    ∀ (acc : List (String × WidgetMetadata)) (s : GenState),
      (recordKeys acc).Nodup →
      (recordKeys (runExtractAux shared files acc s).1).Nodup := by
  induction files with
  | nil =>
      intro acc s h
      simpa [runExtractAux] using h
  | cons f rest ih =>
      intro acc s h
      rcases hp : processFile shared f s with ⟨entry, s'⟩
      rcases entry with _ | m
      · simpa [runExtractAux, hp] using ih acc s' h
      · simpa [runExtractAux, hp] using ih _ s' (recordSet_keys_nodup _ _ _ h)

theorem runExtractAux_truthy (shared : SharedModule) (files : List WidgetFile) :
    ∀ (acc : List (String × WidgetMetadata)) (s : GenState),
      (∀ e ∈ acc, e.2.exampleOutput.truthy = true) →
      ∀ e ∈ (runExtractAux shared files acc s).1, e.2.exampleOutput.truthy = true := by
  induction files with
  | nil =>
      intro acc s h
      simpa [runExtractAux] using h
  | cons f rest ih =>
      intro acc s h
      rcases hp : processFile shared f s with ⟨entry, s'⟩
      rcases entry with _ | m
      · simpa [runExtractAux, hp] using ih acc s' h
      · have hacc : ∀ e ∈ recordSet acc m.name m, e.2.exampleOutput.truthy = true := by
          intro e he
          rcases recordSet_mem acc m.name m e he with rfl | he'
          · exact (processFile_some_truthy shared f s m s' hp).1
          · exact h e he'
        simpa [runExtractAux, hp] using ih _ s' hacc

/-- C3 counterexample: an explicit example reference that resolves in the
shared module — to the falsy value `0` — is not used verbatim: the file
carries the registration marker and the reference resolves, yet the output
map stays empty instead of containing an entry with `0`. -/
theorem extractor_verbatim_counterexample :
    findExampleName [⟨false, some "zeroExample", none⟩] = some "zeroExample" ∧
    (fun nm => if nm = "zeroExample" then some (SharedExport.val (Value.vnum 0)) else none :
        SharedModule) "zeroExample" = some (SharedExport.val (Value.vnum 0)) ∧
    (runExtract
        (fun nm => if nm = "zeroExample" then some (SharedExport.val (Value.vnum 0)) else none)
        [⟨"widget", true, [⟨false, some "zeroExample", none⟩]⟩] zeroState).1 = [] := by
  refine ⟨rfl, rfl, rfl⟩

/-- C3 (amended): the extractor's per-unit behavior.  A unit without the
registration marker contributes nothing (and the run continues); an explicit
example reference resolving in the shared module to a truthy value is used
verbatim as the entry's `exampleOutput`; a unit whose example resolves to
nothing is omitted rather than inserted with a placeholder; and the keys of
the resulting map are unique. -/
theorem extractor_map_construction (shared : SharedModule) (f : WidgetFile)
    (rest : List WidgetFile) (acc : List (String × WidgetMetadata))
    (s s' : GenState) (n : String) (e : SharedExport) (files : List WidgetFile) :
    (f.containsDefineWidget = false →
       processFile shared f s = (none, s) ∧
       runExtractAux shared (f :: rest) acc s = runExtractAux shared rest acc s) ∧
    (f.containsDefineWidget = true → findExampleName f.lines = some n →
       shared n = some e → e.truthy = true →
       processFile shared f s = (some ⟨f.name, e⟩, s)) ∧
    (processFile shared f s = (none, s') →
       runExtractAux shared (f :: rest) acc s = runExtractAux shared rest acc s') ∧
    (recordKeys (runExtract shared files s).1).Nodup := by
  refine ⟨?_, ?_, ?_, ?_⟩
  · intro hd
    have hp : processFile shared f s = (none, s) := by simp [processFile, hd]
    exact ⟨hp, by simp [runExtractAux, hp]⟩
  · intro hd hex hsh ht
    simp [processFile, hd, resolveExample, hex, hsh, ht, finalizeEntry]
  · intro hp
    simp [runExtractAux, hp]
  · exact runExtractAux_keys_nodup shared files [] s (by simp [recordKeys])

/-- The shared module of the extractor witness runs. -/
def sharedW : SharedModule := fun nm =>
  if nm = "examplePokemonData" then some (SharedExport.val (Value.vobj [("id", Value.vnum 25)]))
  else none

/-- A widget source unit carrying the registration marker and an explicit
example reference. -/
def filePoke : WidgetFile := ⟨"pokemon", true, [⟨false, some "examplePokemonData", none⟩]⟩

/-- A source unit under the widgets path with no registration marker. -/
def filePlain : WidgetFile := ⟨"helpers", false, []⟩

/-- C3 witness at concrete inputs: the marker-less unit contributes nothing
while the run continues; the resolving truthy example reference is used
verbatim; a unit processed to nothing leaves the map construction untouched;
and the keys of a concrete two-unit run are unique. -/
theorem extractor_map_construction_witness :
    (processFile sharedW filePlain zeroState = (none, zeroState) ∧
     runExtractAux sharedW [filePlain, filePoke] [] zeroState
       = runExtractAux sharedW [filePoke] [] zeroState) ∧
    processFile sharedW filePoke zeroState
      = (some ⟨"pokemon", SharedExport.val (Value.vobj [("id", Value.vnum 25)])⟩,
         zeroState) ∧
    runExtractAux sharedW [filePlain] [] zeroState
      = runExtractAux sharedW ([] : List WidgetFile) [] zeroState ∧
    (recordKeys (runExtract sharedW [filePlain, filePoke] zeroState).1).Nodup :=
  ⟨(extractor_map_construction sharedW filePlain [filePoke] [] zeroState zeroState
      "examplePokemonData" (SharedExport.val (Value.vobj [("id", Value.vnum 25)]))
      [filePlain, filePoke]).1 rfl,
   (extractor_map_construction sharedW filePoke [] [] zeroState zeroState
      "examplePokemonData" (SharedExport.val (Value.vobj [("id", Value.vnum 25)]))
      []).2.1 rfl rfl rfl rfl,
   (extractor_map_construction sharedW filePlain [] [] zeroState zeroState
      "examplePokemonData" (SharedExport.val (Value.vobj [("id", Value.vnum 25)]))
      []).2.2.1 rfl,
   (extractor_map_construction sharedW filePlain [] [] zeroState zeroState
      "examplePokemonData" (SharedExport.val (Value.vobj [("id", Value.vnum 25)]))
      [filePlain, filePoke]).2.2.2⟩

/-- C10: the extractor's truthiness filtering.  A falsy resolved example
reference is not used verbatim — the loop falls through to schema-based
generation; a finally-resolved falsy example means the widget is omitted
even though resolution succeeded; and consequently no entry of the output
map ever carries a falsy `exampleOutput`. -/
theorem extractor_falsy_filtering (shared : SharedModule) (f : WidgetFile)
    (s s' : GenState) (n : String) (e e' : SharedExport) (files : List WidgetFile) :
    (f.containsDefineWidget = true → findExampleName f.lines = some n →
       shared n = some e → e.truthy = false →
       processFile shared f s = finalizeEntry f.name (resolveFromSchema shared f s)) ∧
    (f.containsDefineWidget = true →
       resolveExample shared f s = (some e', s') → e'.truthy = false →
       processFile shared f s = (none, s')) ∧
    (∀ entry ∈ (runExtract shared files s).1, entry.2.exampleOutput.truthy = true) := by
  refine ⟨?_, ?_, ?_⟩
  · intro hd hex hsh ht
    simp [processFile, hd, resolveExample, hex, hsh, ht]
  · intro hd hre ht
    simp [processFile, hd, hre, finalizeEntry, ht]
  · exact runExtractAux_truthy shared files [] s (by simp)

/-- The shared module of the C10 witness run: the explicit example reference
resolves to the falsy value `0`, and the schema reference resolves to a
literal schema (unsupported by the extractor's generator, so generation
yields `null` — still falsy). -/
def sharedFalsy : SharedModule := fun nm =>
  if nm = "zeroExample" then some (SharedExport.val (Value.vnum 0))
  else if nm = "boolSchema" then some (SharedExport.schema (Zod.zliteral (Value.vbool true)))
  else none

/-- A widget source unit whose example reference resolves to a falsy value
and whose schema reference leads to a falsy generated example. -/
def fileFalsy : WidgetFile := ⟨"w", true, [⟨false, some "zeroExample", some "boolSchema"⟩]⟩

/-- C10 witness at concrete inputs: the falsy `0` example is bypassed in
favor of schema generation; the generated example is `null` (falsy), so the
widget is omitted with only the generator's diagnostic left behind; and
every entry of the resulting (here empty) map is truthy. -/
theorem extractor_falsy_filtering_witness :
    processFile sharedFalsy fileFalsy zeroState
      = finalizeEntry "w" (resolveFromSchema sharedFalsy fileFalsy zeroState) ∧
    processFile sharedFalsy fileFalsy zeroState
      = (none, pushWarn zeroState "[faker] Unknown schema type: ZodLiteral") :=
  ⟨(extractor_falsy_filtering sharedFalsy fileFalsy zeroState
      (pushWarn zeroState "[faker] Unknown schema type: ZodLiteral") "zeroExample"
      (SharedExport.val (Value.vnum 0)) (SharedExport.val Value.vnull)
      [fileFalsy]).1 rfl rfl rfl rfl,
   (extractor_falsy_filtering sharedFalsy fileFalsy zeroState
      (pushWarn zeroState "[faker] Unknown schema type: ZodLiteral") "zeroExample"
      (SharedExport.val (Value.vnum 0)) (SharedExport.val Value.vnull)
      [fileFalsy]).2.1 rfl
      (by simp [resolveExample, resolveFromSchema, findExampleName, findSchemaName,
            scanLines, fileFalsy, sharedFalsy, SharedExport.asZod, SharedExport.truthy,
            Value.truthy, generateExampleFromZodSchema]) rfl⟩
